import Mathlib

set_option maxHeartbeats 1000000

/-!
Shallow embedding of the `SamtoolsDispatcher` adapter class of
`pysam/__init__.py`, together with theorems settling the specification's
claims about it.

The class is embedded with explicit state passing: every method takes the
dispatcher's state and returns the (possibly updated) state alongside its
result.  Raising `SamtoolsError` is modelled by the `CallResult.raised`
constructor carrying the exception's message string.  The external executor
`csamtools._samtools_dispatch` is a collaborator outside the repository;
invocation theorems quantify over the `ExecutionOutcome` it returns, and the
`usage` method takes the executor itself as a function argument so that "calls
the executor with the bound command and no arguments" is expressible.
-/

universe u

/-- The triple returned by the external executor
`csamtools._samtools_dispatch`: exit code (`retval`), stderr lines, and the
stdout text. -/
structure ExecutionOutcome where
  retval : Int
  stderr : List String
  stdout : String

/-- State of one `SamtoolsDispatcher` instance: the bound command identifier
(`self.dispatch`), the optional ordered parser list (`self.parsers`, pairs of
a required-option list and a transform producing an `α`), and the retained
stderr snapshot (`self.stderr`, initialised to `[]` in `__init__`). -/
structure Dispatcher (α : Type u) where
  dispatch : String
  parsers : Option (List (List String × (String → α)))
  stderr : List String

/-- Result of one invocation: either a raised `SamtoolsError` carrying its
message, or a normal return, the latter being raw stdout (`Sum.inl`) or the
structured result of a parser transform (`Sum.inr`). -/
inductive CallResult (α : Type u) where
  | raised (msg : String)
  | returned (val : String ⊕ α)

/-- Whether a call result is a raised error. -/
def CallResult.isRaised {α : Type u} : CallResult α → Bool
  | .raised _ => true
  | .returned _ => false

/-- Python's `str.startswith`: the characters of `p` are an initial segment of
the characters of `x`.  (Stated on the character lists so that concrete
instances evaluate inside the kernel.) -/
def strStartswith (x p : String) : Bool :=
  p.data.isPrefixOf x.data

/-- The benign-diagnostic whitelist test of `SamtoolsDispatcher.__call__`
(lines 58-63): a stderr line is filtered out iff it starts with one of the
four fixed prefixes. -/
def isBenignLine (x : String) : Bool :=
  strStartswith x "[sam_header_read2]" || strStartswith x "[bam_index_load]" ||
    strStartswith x "[bam_sort_core]" ||
    strStartswith x "[samopen] SAM header is present"

/-- Reads `self.parsers` through its Python truthiness convention: `None` and
`[]` behave identically in the class (both are falsy, and the parser loop runs
only under the truthiness guard), so the optional list is accessed via this
function. -/
def parsersList {α : Type u} :
    Option (List (List String × (String → α))) → List (List String × (String → α))
  | none => []
  | some l => l

/-- Python truthiness of `self.parsers`: true iff it is a non-`None`,
non-empty list. -/
def parsersTruthy {α : Type u}
    (p : Option (List (List String × (String → α)))) : Bool :=
  !(parsersList p).isEmpty

/-- The inner `for option in options: if option not in args: break / else`
loop (lines 69-72): a binding matches iff every one of its required options
occurs among the positional arguments. -/
def matchesOptions (options : List String) (args : List String) : Bool :=
  options.all (fun o => decide (o ∈ args))

/-- The outer parser loop of lines 68-72: return the transform of the first
binding, in registration order, all of whose required options occur in
`args`; `none` when no binding matches. -/
def selectParser {α : Type u} (args : List String) :
    List (List String × (String → α)) → Option (String → α)
  | [] => none
  | (options, p) :: rest =>
    if matchesOptions options args then some p else selectParser args rest

/-- `SamtoolsDispatcher.__call__` (lines 47-74) with explicit state passing:
given the dispatcher state, the positional `args`, the truthiness of
`kwargs.get("raw")`, and the outcome the executor returned for this call,
produce the new state and the call's result.  The non-zero exit check of line
51 precedes the `self.stderr = stderr` assignment of line 52, which precedes
the benign-line filtering and the suspicious-line check of lines 58-64. -/
def SamtoolsDispatcher.call {α : Type u} (d : Dispatcher α) (args : List String)
    (raw : Bool) (outcome : ExecutionOutcome) : Dispatcher α × CallResult α :=
  if outcome.retval ≠ 0 then
    (d, .raised ("csamtools returned with error " ++ toString outcome.retval ++
      ": " ++ String.intercalate "\n" outcome.stderr))
  else
    let d' : Dispatcher α := { d with stderr := outcome.stderr }
    let suspicious := outcome.stderr.filter (fun x => !isBenignLine x)
    if suspicious ≠ [] then
      (d', .raised (String.intercalate "\n" suspicious))
    else if !raw && (outcome.stdout != "") && parsersTruthy d.parsers then
      match selectParser args (parsersList d.parsers) with
      | some p => (d', .returned (Sum.inr (p outcome.stdout)))
      | none => (d', .returned (Sum.inl outcome.stdout))
    else
      (d', .returned (Sum.inl outcome.stdout))

/-- `SamtoolsDispatcher.getMessages` (lines 76-77): returns the retained
stderr snapshot. -/
def SamtoolsDispatcher.getMessages {α : Type u} (d : Dispatcher α) : List String :=
  d.stderr

/-- `SamtoolsDispatcher.usage` (lines 79-82): calls the executor with the
bound command identifier and no arguments, and returns the stderr lines
joined with the empty separator as a normal (unparsed) return; the method
never assigns `self.stderr`, so the state comes back unchanged. -/
def SamtoolsDispatcher.usage {α : Type u} (d : Dispatcher α)
    (ex : String → List String → ExecutionOutcome) : Dispatcher α × CallResult α :=
  (d, .returned (Sum.inl (String.join ((ex d.dispatch []).stderr))))

/-! ### Helper lemmas about parser selection -/

/-- A binding matches exactly when its required options form a subset of the
positional arguments. -/
theorem matchesOptions_iff (options args : List String) :
    matchesOptions options args = true ↔ ∀ o ∈ options, o ∈ args := by
  simp [matchesOptions]

/-- When the parser loop returns a transform, that transform comes from the
first matching binding: everything before it in registration order fails to
match. -/
theorem selectParser_eq_some {α : Type u} {args : List String}
    {l : List (List String × (String → α))} {p : String → α}
    (h : selectParser args l = some p) :
    ∃ l₁ options l₂, l = l₁ ++ (options, p) :: l₂ ∧
      matchesOptions options args = true ∧
      ∀ b ∈ l₁, matchesOptions b.1 args = false := by
  induction l with
  | nil => simp [selectParser] at h
  | cons hd tl ih =>
    obtain ⟨options, q⟩ := hd
    by_cases hm : matchesOptions options args
    · simp [selectParser, hm] at h
      exact ⟨[], options, tl, by simp [h], hm, by simp⟩
    · simp [selectParser, hm] at h
      obtain ⟨l₁, options', l₂, hl, hmt, hfail⟩ := ih h
      refine ⟨(options, q) :: l₁, options', l₂, by simp [hl], hmt, ?_⟩
      intro b hb
      rcases List.mem_cons.mp hb with hb | hb
      · simpa [hb] using Bool.eq_false_iff.mpr hm
      · exact hfail b hb
  
/-- When the parser loop returns a transform, that transform belongs to a
matching registered binding. -/
theorem selectParser_mem {α : Type u} {args : List String}
    {l : List (List String × (String → α))} {p : String → α}
    (h : selectParser args l = some p) :
    ∃ options, (options, p) ∈ l ∧ matchesOptions options args = true := by
  obtain ⟨l₁, options, l₂, hl, hm, -⟩ := selectParser_eq_some h
  exact ⟨options, by simp [hl], hm⟩

/-- When the parser loop returns nothing, no registered binding matches. -/
theorem selectParser_eq_none {α : Type u} {args : List String}
    {l : List (List String × (String → α))}
    (h : selectParser args l = none) :
    ∀ b ∈ l, matchesOptions b.1 args = false := by
  induction l with
  | nil => simp
  | cons hd tl ih =>
    obtain ⟨options, q⟩ := hd
    by_cases hm : matchesOptions options args
    · simp [selectParser, hm] at h
    · simp [selectParser, hm] at h
      intro b hb
      rcases List.mem_cons.mp hb with hb | hb
      · simpa [hb] using Bool.eq_false_iff.mpr hm
      · exact ih h b hb

/-! ### Claims -/

/-- C1: whenever the executor returns a non-zero exit code, the invocation
raises, regardless of the stderr content (the statement quantifies over all
stderr lines and stdout), the message embeds the exit code and the full
joined stderr text, and the check precedes any line filtering (the message
joins the unfiltered lines). -/
theorem claim_C1_nonzero_exit_raises {α : Type u} (d : Dispatcher α)
    (args : List String) (raw : Bool) (outcome : ExecutionOutcome)
    (h : outcome.retval ≠ 0) :
    (SamtoolsDispatcher.call d args raw outcome).2 =
      CallResult.raised ("csamtools returned with error " ++
        toString outcome.retval ++ ": " ++
        String.intercalate "\n" outcome.stderr) := by
  simp [SamtoolsDispatcher.call, h]

/-- Witness for C1: the spec's failure example, exit code 1 with stderr line
"error: truncated file". -/
theorem claim_C1_witness :
    (1 : Int) ≠ 0 ∧
    (SamtoolsDispatcher.call (α := Unit) ⟨"view", none, []⟩ [] false
        ⟨1, ["error: truncated file"], ""⟩).2 =
      CallResult.raised "csamtools returned with error 1: error: truncated file" :=
  ⟨by decide,
    (claim_C1_nonzero_exit_raises ⟨"view", none, []⟩ [] false
        ⟨1, ["error: truncated file"], ""⟩ (by decide)).trans
      (congrArg CallResult.raised (by decide))⟩

/-- C2: with exit code 0 and at least one stderr line not starting with any
whitelisted prefix, the invocation raises and the message is exactly the
non-whitelisted lines, joined with newlines, the whitelisted ones excluded. -/
theorem claim_C2_suspicious_stderr_raises {α : Type u} (d : Dispatcher α)
    (args : List String) (raw : Bool) (outcome : ExecutionOutcome)
    (h0 : outcome.retval = 0)
    (hs : outcome.stderr.filter (fun x => !isBenignLine x) ≠ []) :
    (SamtoolsDispatcher.call d args raw outcome).2 =
      CallResult.raised (String.intercalate "\n"
        (outcome.stderr.filter (fun x => !isBenignLine x))) := by
  simp [SamtoolsDispatcher.call, h0, hs]

/-- Witness for C2: exit code 0, one benign line and one suspicious line; the
message keeps only the suspicious one. -/
theorem claim_C2_witness :
    (0 : Int) = 0 ∧
    ["[bam_index_load] ok", "boom"].filter (fun x => !isBenignLine x) ≠ [] ∧
    (SamtoolsDispatcher.call (α := Unit) ⟨"view", none, []⟩ [] false
        ⟨0, ["[bam_index_load] ok", "boom"], "out"⟩).2 =
      CallResult.raised "boom" :=
  ⟨rfl, by decide,
    (claim_C2_suspicious_stderr_raises ⟨"view", none, []⟩ [] false
        ⟨0, ["[bam_index_load] ok", "boom"], "out"⟩ rfl (by decide)).trans
      (congrArg CallResult.raised (by decide))⟩

/-- C3: with exit code 0 and every stderr line starting with a whitelisted
prefix (the suspicious filter is empty), the invocation never raises: it
returns either raw stdout or the result of a registered matching parser
transform applied to stdout. -/
theorem claim_C3_clean_stderr_returns {α : Type u} (d : Dispatcher α)
    (args : List String) (raw : Bool) (outcome : ExecutionOutcome)
    (h0 : outcome.retval = 0)
    (hb : outcome.stderr.filter (fun x => !isBenignLine x) = []) :
    ∃ v, (SamtoolsDispatcher.call d args raw outcome).2 = CallResult.returned v ∧
      (v = Sum.inl outcome.stdout ∨
        ∃ options p, (options, p) ∈ parsersList d.parsers ∧
          matchesOptions options args = true ∧ v = Sum.inr (p outcome.stdout)) := by
  by_cases hg : (!raw && (outcome.stdout != "") && parsersTruthy d.parsers) = true
  · cases hsel : selectParser args (parsersList d.parsers) with
    | none =>
      exact ⟨Sum.inl outcome.stdout,
        by simp [SamtoolsDispatcher.call, h0, hb, hg, hsel], Or.inl rfl⟩
    | some p =>
      obtain ⟨options, hmem, hmat⟩ := selectParser_mem hsel
      exact ⟨Sum.inr (p outcome.stdout),
        by simp [SamtoolsDispatcher.call, h0, hb, hg, hsel],
        Or.inr ⟨options, p, hmem, hmat, rfl⟩⟩
  · exact ⟨Sum.inl outcome.stdout,
      by simp [SamtoolsDispatcher.call, h0, hb, hg], Or.inl rfl⟩

/-- Witness for C3: the spec's end-to-end example, a "flagstat" dispatcher
with no parsers, outcome (0, ["[bam_index_load] foo"], "120 total\n"). -/
theorem claim_C3_witness :
    (0 : Int) = 0 ∧
    ["[bam_index_load] foo"].filter (fun x => !isBenignLine x) = [] ∧
    ∃ v, (SamtoolsDispatcher.call (α := Unit) ⟨"flagstat", none, []⟩ [] false
        ⟨0, ["[bam_index_load] foo"], "120 total\n"⟩).2 = CallResult.returned v ∧
      (v = Sum.inl "120 total\n" ∨
        ∃ options p, (options, p) ∈ parsersList (α := Unit) none ∧
          matchesOptions options [] = true ∧ v = Sum.inr (p "120 total\n")) :=
  ⟨rfl, by decide,
    claim_C3_clean_stderr_returns ⟨"flagstat", none, []⟩ [] false
      ⟨0, ["[bam_index_load] foo"], "120 total\n"⟩ rfl (by decide)⟩

/-- C6: on a successful invocation (exit code 0, only whitelisted stderr),
if the raw flag is set, or stdout is empty, or the dispatcher's parser list
is absent or empty, stdout is returned unchanged with no transform applied. -/
theorem claim_C6_raw_or_empty_returns_stdout {α : Type u} (d : Dispatcher α)
    (args : List String) (raw : Bool) (outcome : ExecutionOutcome)
    (h0 : outcome.retval = 0)
    (hb : outcome.stderr.filter (fun x => !isBenignLine x) = [])
    (hcase : raw = true ∨ outcome.stdout = "" ∨ parsersTruthy d.parsers = false) :
    (SamtoolsDispatcher.call d args raw outcome).2 =
      CallResult.returned (Sum.inl outcome.stdout) := by
  have hg : (!raw && (outcome.stdout != "") && parsersTruthy d.parsers) = false := by
    rcases hcase with h | h | h <;> simp [h]
  simp [SamtoolsDispatcher.call, h0, hb, hg]

/-- Witness for C6: the raw flag suppresses the matching binding and the raw
stdout comes back. -/
theorem claim_C6_witness :
    (0 : Int) = 0 ∧
    ([] : List String).filter (fun x => !isBenignLine x) = [] ∧
    (true = true ∨ "table" = "" ∨
      parsersTruthy (α := Nat) (some [([], fun _ => 7)]) = false) ∧
    (SamtoolsDispatcher.call (α := Nat) ⟨"pileup", some [([], fun _ => 7)], []⟩
        ["-c"] true ⟨0, [], "table"⟩).2 =
      CallResult.returned (Sum.inl "table") :=
  ⟨rfl, rfl, Or.inl rfl,
    claim_C6_raw_or_empty_returns_stdout ⟨"pileup", some [([], fun _ => 7)], []⟩
      ["-c"] true ⟨0, [], "table"⟩ rfl rfl (Or.inl rfl)⟩

/-- C4: on a successful invocation (exit code 0, only whitelisted stderr)
with a matching guard (raw unset, stdout non-empty, parser list present and
non-empty), the bindings are scanned in registration order and the transform
of the first binding whose entire required-option list is contained in the
positional arguments is applied to stdout; when no binding matches, stdout is
returned unchanged.  The second conjunct is the spec's particular case: with
bindings B1 (requires ["-c"]) before B2 (requires []), arguments containing
"-c" select B1's transform and arguments without "-c" select B2's. -/
theorem claim_C4_first_match_selection {α : Type u} (d : Dispatcher α)
    (args : List String) (outcome : ExecutionOutcome)
    (h0 : outcome.retval = 0)
    (hb : outcome.stderr.filter (fun x => !isBenignLine x) = [])
    (hs : outcome.stdout ≠ "")
    (hp : parsersTruthy d.parsers = true) :
    ((∃ l₁ options p l₂,
        parsersList d.parsers = l₁ ++ (options, p) :: l₂ ∧
        (∀ o ∈ options, o ∈ args) ∧
        (∀ b ∈ l₁, ¬ ∀ o ∈ b.1, o ∈ args) ∧
        (SamtoolsDispatcher.call d args false outcome).2 =
          CallResult.returned (Sum.inr (p outcome.stdout))) ∨
      ((∀ b ∈ parsersList d.parsers, ¬ ∀ o ∈ b.1, o ∈ args) ∧
        (SamtoolsDispatcher.call d args false outcome).2 =
          CallResult.returned (Sum.inl outcome.stdout))) ∧
    (∀ (p₁ p₂ : String → α) (dsp : String) (st : List String),
      (("-c" ∈ args) →
        (SamtoolsDispatcher.call ⟨dsp, some [(["-c"], p₁), ([], p₂)], st⟩
            args false outcome).2 =
          CallResult.returned (Sum.inr (p₁ outcome.stdout))) ∧
      (("-c" ∉ args) →
        (SamtoolsDispatcher.call ⟨dsp, some [(["-c"], p₁), ([], p₂)], st⟩
            args false outcome).2 =
          CallResult.returned (Sum.inr (p₂ outcome.stdout)))) := by
  constructor
  · cases hsel : selectParser args (parsersList d.parsers) with
    | some p =>
      obtain ⟨l₁, options, l₂, hl, hmat, hfail⟩ := selectParser_eq_some hsel
      refine Or.inl ⟨l₁, options, p, l₂, hl, (matchesOptions_iff _ _).mp hmat,
        fun b hb => ?_, by simp [SamtoolsDispatcher.call, h0, hb, hs, hp, hsel]⟩
      rw [← matchesOptions_iff]
      simp [hfail b hb]
    | none =>
      refine Or.inr ⟨fun b hb => ?_,
        by simp [SamtoolsDispatcher.call, h0, hb, hs, hp, hsel]⟩
      rw [← matchesOptions_iff]
      simp [selectParser_eq_none hsel b hb]
  · intro p₁ p₂ dsp st
    constructor
    · intro hc
      have hm1 : matchesOptions ["-c"] args = true := by
        rw [matchesOptions_iff]; simpa using hc
      simp [SamtoolsDispatcher.call, h0, hb, hs, selectParser, hm1,
        parsersTruthy, parsersList]
    · intro hc
      have hm1 : matchesOptions ["-c"] args = false := by
        simp [matchesOptions, hc]
      have hm2 : matchesOptions [] args = true := rfl
      simp [SamtoolsDispatcher.call, h0, hb, hs, selectParser, hm1, hm2,
        parsersTruthy, parsersList]

/-- Witness for C4: a dispatcher with bindings B1 = (["-c"], constant 1) and
B2 = ([], constant 2); with "-c" among the arguments, B1's transform is
selected. -/
theorem claim_C4_witness :
    (0 : Int) = 0 ∧
    ([] : List String).filter (fun x => !isBenignLine x) = [] ∧
    "tbl" ≠ "" ∧
    parsersTruthy (α := Nat) (some [(["-c"], fun _ => 1), ([], fun _ => 2)]) = true ∧
    ("-c" ∈ ["-c", "in.bam"]) ∧
    (SamtoolsDispatcher.call (α := Nat)
        ⟨"pileup", some [(["-c"], fun _ => 1), ([], fun _ => 2)], []⟩
        ["-c", "in.bam"] false ⟨0, [], "tbl"⟩).2 =
      CallResult.returned (Sum.inr 1) := by
  refine ⟨rfl, rfl, by decide, rfl, by decide, ?_⟩
  exact ((claim_C4_first_match_selection (α := Nat)
      ⟨"pileup", some [(["-c"], fun _ => 1), ([], fun _ => 2)], []⟩
      ["-c", "in.bam"] ⟨0, [], "tbl"⟩ rfl rfl (by decide) rfl).2
      (fun _ => 1) (fun _ => 2) "pileup" []).1 (by decide)

/-! ### Helper lemmas about the invocation's state and raise status -/

/-- The state an invocation returns: unchanged when the exit code is non-zero
(the raise of line 51 precedes the assignment of line 52), otherwise the
snapshot is replaced by the outcome's unfiltered stderr. -/
theorem call_fst {α : Type u} (d : Dispatcher α) (args : List String)
    (raw : Bool) (outcome : ExecutionOutcome) :
    (SamtoolsDispatcher.call d args raw outcome).1 =
      if outcome.retval ≠ 0 then d else { d with stderr := outcome.stderr } := by
  by_cases h : outcome.retval ≠ 0
  · simp [SamtoolsDispatcher.call, h]
  · by_cases hsusp : outcome.stderr.filter (fun x => !isBenignLine x) = []
    · by_cases hg : (!raw && (outcome.stdout != "") && parsersTruthy d.parsers) = true
      · cases hsel : selectParser args (parsersList d.parsers) <;>
          simp [SamtoolsDispatcher.call, h, hsusp, hg, hsel]
      · simp [SamtoolsDispatcher.call, h, hsusp, hg]
    · simp [SamtoolsDispatcher.call, h, hsusp]

/-- With exit code 0, an invocation raises exactly when some stderr line
survives the benign-prefix filter. -/
theorem call_isRaised_of_retval_zero {α : Type u} (d : Dispatcher α)
    (args : List String) (raw : Bool) (outcome : ExecutionOutcome)
    (h0 : outcome.retval = 0) :
    (SamtoolsDispatcher.call d args raw outcome).2.isRaised =
      !(outcome.stderr.filter (fun x => !isBenignLine x)).isEmpty := by
  by_cases hsusp : outcome.stderr.filter (fun x => !isBenignLine x) = []
  · by_cases hg : (!raw && (outcome.stdout != "") && parsersTruthy d.parsers) = true
    · cases hsel : selectParser args (parsersList d.parsers) <;>
        simp [SamtoolsDispatcher.call, CallResult.isRaised, h0, hsusp, hg, hsel]
    · simp [SamtoolsDispatcher.call, CallResult.isRaised, h0, hsusp, hg]
  · obtain ⟨y, ys, hcons⟩ := List.exists_cons_of_ne_nil hsusp
    simp [SamtoolsDispatcher.call, CallResult.isRaised, h0, hsusp, hcons]

/-! ### Claims C5, C7, C8, C9, C10 -/

/-- Counterexample to C5 as stated: on an invocation whose executor outcome
has a non-zero exit code, the raise of line 51 happens before the assignment
`self.stderr = stderr` of line 52, so the retained snapshot keeps its old
value ["old"] instead of being overwritten with that invocation's stderr
["new"]. -/
theorem claim_C5_counterexample :
    (SamtoolsDispatcher.call (α := Unit) ⟨"view", none, ["old"]⟩ [] false
        ⟨1, ["new"], ""⟩).1.stderr ≠ ["new"] := by decide

/-- C5 amended: the retained snapshot is overwritten (replaced, not appended
to) with the invocation's stderr lines on every invocation whose exit code is
zero — including those that raise on suspicious stderr — while an invocation
with a non-zero exit code raises before the assignment and leaves the
snapshot unchanged. -/
theorem claim_C5_snapshot_overwrite {α : Type u} (d : Dispatcher α)
    (args : List String) (raw : Bool) (outcome : ExecutionOutcome) :
    (outcome.retval = 0 →
      (SamtoolsDispatcher.call d args raw outcome).1.stderr = outcome.stderr) ∧
    (outcome.retval ≠ 0 →
      (SamtoolsDispatcher.call d args raw outcome).1.stderr = d.stderr) := by
  constructor
  · intro h0
    rw [call_fst]
    simp [h0]
  · intro h
    rw [call_fst]
    simp [h]

/-- Witness for C5: a zero-exit invocation (which raises on the suspicious
line "w1") overwrites the snapshot, and a non-zero-exit invocation leaves it
at its previous value. -/
theorem claim_C5_witness :
    (SamtoolsDispatcher.call (α := Unit) ⟨"view", none, ["before"]⟩ [] false
        ⟨0, ["w1", "[bam_sort_core] z"], "out"⟩).1.stderr =
      ["w1", "[bam_sort_core] z"] ∧
    (SamtoolsDispatcher.call (α := Unit) ⟨"view", none, ["before"]⟩ [] false
        ⟨3, ["gone"], "out"⟩).1.stderr = ["before"] :=
  ⟨(claim_C5_snapshot_overwrite ⟨"view", none, ["before"]⟩ [] false
      ⟨0, ["w1", "[bam_sort_core] z"], "out"⟩).1 rfl,
    (claim_C5_snapshot_overwrite ⟨"view", none, ["before"]⟩ [] false
      ⟨3, ["gone"], "out"⟩).2 (by decide)⟩

/-- C7: with exit code 0, permuting the stderr lines so that only the
whitelisted lines move while the subsequence of non-whitelisted lines stays
the same does not change whether the invocation raises. -/
theorem claim_C7_reorder_whitelisted_invariant {α : Type u} (d : Dispatcher α)
    (args : List String) (raw : Bool) (e₁ e₂ : List String) (s : String)
    (hperm : e₁.Perm e₂)
    (hsame : e₁.filter (fun x => !isBenignLine x) =
      e₂.filter (fun x => !isBenignLine x)) :
    (SamtoolsDispatcher.call d args raw ⟨0, e₁, s⟩).2.isRaised =
      (SamtoolsDispatcher.call d args raw ⟨0, e₂, s⟩).2.isRaised := by
  rw [call_isRaised_of_retval_zero d args raw ⟨0, e₁, s⟩ rfl,
    call_isRaised_of_retval_zero d args raw ⟨0, e₂, s⟩ rfl]
  simp [hsame]

/-- Witness for C7: two interleavings of the same whitelisted lines around
the same suspicious line "bad" raise alike. -/
theorem claim_C7_witness :
    (["[bam_sort_core] a", "bad", "[bam_index_load] b"].Perm
      ["[bam_index_load] b", "bad", "[bam_sort_core] a"]) ∧
    ["[bam_sort_core] a", "bad", "[bam_index_load] b"].filter
        (fun x => !isBenignLine x) =
      ["[bam_index_load] b", "bad", "[bam_sort_core] a"].filter
        (fun x => !isBenignLine x) ∧
    (SamtoolsDispatcher.call (α := Unit) ⟨"sort", none, []⟩ [] false
        ⟨0, ["[bam_sort_core] a", "bad", "[bam_index_load] b"], "o"⟩).2.isRaised =
      (SamtoolsDispatcher.call (α := Unit) ⟨"sort", none, []⟩ [] false
        ⟨0, ["[bam_index_load] b", "bad", "[bam_sort_core] a"], "o"⟩).2.isRaised :=
  ⟨by decide, by decide,
    claim_C7_reorder_whitelisted_invariant ⟨"sort", none, []⟩ [] false
      ["[bam_sort_core] a", "bad", "[bam_index_load] b"]
      ["[bam_index_load] b", "bad", "[bam_sort_core] a"] "o"
      (by decide) (by decide)⟩

/-- Counterexample to C8 as stated: after an invocation whose exit code is
non-zero, `getMessages` still returns the previous snapshot ["stale"], not
the stderr ["fresh"] captured during that most recent invocation. -/
theorem claim_C8_counterexample :
    SamtoolsDispatcher.getMessages
        (SamtoolsDispatcher.call (α := Unit) ⟨"sort", none, ["stale"]⟩ [] false
          ⟨2, ["fresh"], ""⟩).1 ≠ ["fresh"] := by decide

/-- C8 amended: `getMessages` returns the unfiltered stderr lines (including
whitelisted ones) captured during the most recent invocation whose exit code
was zero; an invocation with a non-zero exit code does not update the
snapshot `getMessages` reads. -/
theorem claim_C8_getMessages_unfiltered {α : Type u} (d : Dispatcher α)
    (args : List String) (raw : Bool) (outcome : ExecutionOutcome)
    (h0 : outcome.retval = 0) :
    SamtoolsDispatcher.getMessages
        (SamtoolsDispatcher.call d args raw outcome).1 = outcome.stderr := by
  rw [SamtoolsDispatcher.getMessages, call_fst]
  simp [h0]

/-- Witness for C8: after a zero-exit invocation, `getMessages` returns the
full stderr, the whitelisted line included, even though that invocation
raised on the suspicious line "warn". -/
theorem claim_C8_witness :
    (0 : Int) = 0 ∧
    SamtoolsDispatcher.getMessages
        (SamtoolsDispatcher.call (α := Unit) ⟨"index", none, []⟩ [] false
          ⟨0, ["[bam_index_load] kept", "warn"], ""⟩).1 =
      ["[bam_index_load] kept", "warn"] :=
  ⟨rfl, claim_C8_getMessages_unfiltered ⟨"index", none, []⟩ [] false
    ⟨0, ["[bam_index_load] kept", "warn"], ""⟩ rfl⟩

/-- C9: for every dispatcher and every executor (hence for every outcome the
executor produces, non-zero exit codes included), the usage operation
evaluates the executor at the bound command identifier with the empty
argument list and returns the joined stderr text as a plain returned string:
it never raises (the result is a `returned` value) and never applies a parser
(the value is on the raw-string side). -/
theorem claim_C9_usage_returns_joined_stderr {α : Type u} (d : Dispatcher α)
    (ex : String → List String → ExecutionOutcome) :
    (SamtoolsDispatcher.usage d ex).2 =
      CallResult.returned (Sum.inl (String.join ((ex d.dispatch []).stderr))) :=
  rfl

/-- C10: for every dispatcher state and every executor outcome, a usage call
leaves the retained snapshot unchanged: `getMessages` answers the same before
and after. -/
theorem claim_C10_usage_preserves_messages {α : Type u} (d : Dispatcher α)
    (ex : String → List String → ExecutionOutcome) :
    SamtoolsDispatcher.getMessages (SamtoolsDispatcher.usage d ex).1 =
      SamtoolsDispatcher.getMessages d :=
  rfl
